import Mathlib

/-!
Verification development for the WatchLLM Python SDK
(packages/sdk-python/src/watchllm/client.py and instrumentation.py).

The Python code is shallowly embedded: pure helpers become Lean
functions, impure inputs (uuid4, wall-clock timestamps, random.random,
the HTTP transport outcome, traceback text) become explicit parameters,
and the thread-local ambient context and the monkey-patch registry
become explicit state records.  Exceptions are modelled with Except.
-/

namespace WatchLLM

/-! ## Character classes of the redaction regexes

client.py _redact_pii applies, on the JSON-serialized event,
  re.sub of  \b[A-Za-z0-9._%+-]+@[A-Za-z0-9.-]+\.[A-Z|a-z]{2,}\b  with [REDACTED_EMAIL]
then
  re.sub of  \b(?:\d{4}[-\s]?){3}\d{4}\b  with [REDACTED_CC].
json.dumps (ensure_ascii default) only ever produces ASCII text, so the
ASCII readings of \w, \d, \s below coincide with Python on every string
this code can actually scan. -/

def isUpperC (c : Char) : Bool := 65 ≤ c.toNat && c.toNat ≤ 90

def isLowerC (c : Char) : Bool := 97 ≤ c.toNat && c.toNat ≤ 122

def isDigC (c : Char) : Bool := 48 ≤ c.toNat && c.toNat ≤ 57

def isLetterC (c : Char) : Bool := isUpperC c || isLowerC c

/-- Python word character \w (ASCII fragment): letters, digits, underscore. -/
def isWordC (c : Char) : Bool := isLetterC c || isDigC c || c = '_'

/-- Python whitespace \s (ASCII fragment). -/
def isSpaceC (c : Char) : Bool :=
  c = ' ' || c = '\t' || c = '\n' || c = '\x0d' || c = '\x0b' || c = '\x0c'

/-- The email local-part class [A-Za-z0-9._%+-]. -/
def isLocalC (c : Char) : Bool :=
  isLetterC c || isDigC c || c = '.' || c = '_' || c = '%' || c = '+' || c = '-'

/-- The email domain class [A-Za-z0-9.-]. -/
def isDomC (c : Char) : Bool := isLetterC c || isDigC c || c = '.' || c = '-'

/-- The email TLD class [A-Z|a-z]: the source regex literally includes the
bar character inside the class. -/
def isTldC (c : Char) : Bool := isLetterC c || c = '|'

/-- The credit-card separator class [-\s]. -/
def isSepC (c : Char) : Bool := c = '-' || isSpaceC c

def isWordOpt : Option Char → Bool
  | none => false
  | some c => isWordC c

/-- Python \b: the two sides of the position differ in word-character-ness
(a missing side counts as non-word). -/
def boundaryB (a b : Option Char) : Bool := isWordOpt a != isWordOpt b

/-! ## Backtracking matchers for the two patterns

Each matcher takes the character preceding the current position (for \b)
and the remaining suffix of the subject, and returns the length of the
match at this position chosen by Python backtracking order, if any. -/

/-- TLD search for T = [A-Z|a-z]: greedy count down from the maximal run,
requiring at least 2 characters and a trailing \b.  tch is the suffix at
the TLD start; the candidate length is the argument. -/
def tryTld (tch : List Char) : Nat → Option Nat
  | 0 => none
  | n + 1 =>
    if n + 1 < 2 then none
    else if boundaryB (tch.get? n) (tch.get? (n + 1)) then some (n + 1)
    else tryTld tch n

/-- Domain-split search for [A-Za-z0-9.-]+\.[A-Z|a-z]{2,}\b: k counts the
characters given to the greedy D-plus, counted down from the maximal run;
the character after them must be a dot, then the TLD search runs on the
rest.  rest is the suffix right after the at sign. -/
def tryDom (rest : List Char) : Nat → Option (Nat × Nat)
  | 0 => none
  | k + 1 =>
    match rest.get? (k + 1) with
    | some c =>
      if c = '.' then
        let tch := rest.drop (k + 2)
        match tryTld tch ((tch.takeWhile isTldC).length) with
        | some t => some (k + 1, t)
        | none => tryDom rest k
      else tryDom rest k
    | none => tryDom rest k

/-- Match of the email pattern anchored at the current position.  The
local-part plus is maximal-munch (equivalent to backtracking because the
at sign is not a local character). -/
def matchEmailAt (prev : Option Char) (cs : List Char) : Option Nat :=
  if !boundaryB prev cs.head? then none
  else
    let l := (cs.takeWhile isLocalC).length
    if l = 0 then none
    else
      match cs.get? l with
      | some c =>
        if c = '@' then
          let rest := cs.drop (l + 1)
          let d := (rest.takeWhile isDomC).length
          if d = 0 then none
          else
            match tryDom rest d with
            | some kt => some (l + 1 + kt.1 + 1 + kt.2)
            | none => none
        else none
      | none => none

/-- Four decimal digits at offset i of cs. -/
def dig4At (cs : List Char) (i : Nat) : Bool :=
  [i, i + 1, i + 2, i + 3].all fun j =>
    match cs.get? j with
    | some c => isDigC c
    | none => false

/-- Tail of the credit-card pattern from offset i: g more copies of
(?:\d{4}[-\s]?) then \d{4}\b.  Each optional separator is greedy (taken
first, dropped on backtracking).  Returns the end offset of the match. -/
def ccTail (cs : List Char) : Nat → Nat → Option Nat
  | i, 0 =>
    if dig4At cs i then
      if boundaryB (cs.get? (i + 3)) (cs.get? (i + 4)) then some (i + 4) else none
    else none
  | i, g + 1 =>
    if dig4At cs i then
      let withSep :=
        match cs.get? (i + 4) with
        | some c => if isSepC c then ccTail cs (i + 5) g else none
        | none => none
      match withSep with
      | some r => some r
      | none => ccTail cs (i + 4) g
    else none

/-- Match of the credit-card pattern anchored at the current position. -/
def matchCcAt (prev : Option Char) (cs : List Char) : Option Nat :=
  if !boundaryB prev cs.head? then none
  else ccTail cs 0 3

/-- Leftmost non-overlapping substitution, the semantics of re.sub: scan
the original text left to right, replace each match, and continue right
after it (the \b context stays that of the original text).  fuel bounds
the recursion by the subject length. -/
def subAll (matchAt : Option Char → List Char → Option Nat) (repl : List Char) :
    Nat → Option Char → List Char → List Char
  | 0, _, cs => cs
  | _ + 1, _, [] => []
  | f + 1, prev, c :: rest =>
    match matchAt prev (c :: rest) with
    | some n =>
      if n = 0 then c :: rest
      else repl ++ subAll matchAt repl f (((c :: rest).take n).getLast?) ((c :: rest).drop n)
    | none => c :: subAll matchAt repl f (some c) rest

def emailSubStr (s : String) : String :=
  String.mk (subAll matchEmailAt "[REDACTED_EMAIL]".data s.data.length none s.data)

def ccSubStr (s : String) : String :=
  String.mk (subAll matchCcAt "[REDACTED_CC]".data s.data.length none s.data)

/-! ## Python values and JSON round trip

Event payloads are Python dicts.  jnum stands for a Python float; float
bit-level behavior is outside the model, so its serialization below is a
stand-in that no theorem evaluates.  nonSer stands for any object
json.dumps cannot serialize (TypeError). -/

inductive JVal where
  | jstr (s : String)
  | jint (n : Int)
  | jnum (q : ℚ)
  | jbool (b : Bool)
  | jnull
  | jlist (xs : List JVal)
  | jobj (kvs : List (String × JVal))
  | nonSer

def lbraceC : Char := Char.ofNat 123

def rbraceC : Char := Char.ofNat 125

def hexDigit (n : Nat) : Char :=
  if n < 10 then Char.ofNat (48 + n) else Char.ofNat (97 + (n - 10))

def hex4 (n : Nat) : List Char :=
  [hexDigit (n / 4096 % 16), hexDigit (n / 256 % 16), hexDigit (n / 16 % 16), hexDigit (n % 16)]

/-- One character of CPython's ensure_ascii JSON string encoder. -/
def jsonEscChar (c : Char) : List Char :=
  if c = '"' then ['\\', '"']
  else if c = '\\' then ['\\', '\\']
  else if c = '\n' then ['\\', 'n']
  else if c = '\x0d' then ['\\', 'r']
  else if c = '\t' then ['\\', 't']
  else if c = '\x08' then ['\\', 'b']
  else if c = '\x0c' then ['\\', 'f']
  else if c.toNat < 32 then '\\' :: 'u' :: hex4 c.toNat
  else if c.toNat < 127 then [c]
  else if c.toNat < 65536 then '\\' :: 'u' :: hex4 c.toNat
  else
    let v := c.toNat - 65536
    ('\\' :: 'u' :: hex4 (55296 + v / 1024)) ++ ('\\' :: 'u' :: hex4 (56320 + v % 1024))

def jsonQuote (s : String) : String :=
  String.mk ('"' :: s.data.flatMap jsonEscChar ++ ['"'])

/-- Stand-in decimal text for a float value (see the note on jnum). -/
def ratText (q : ℚ) : String :=
  if q.den = 1 then toString q.num else toString q.num ++ "/" ++ toString q.den

def commaJoin (xs : List String) : String :=
  match xs with
  | [] => ""
  | x :: rest => rest.foldl (fun acc y => acc ++ ", " ++ y) x

mutual

/-- Embedding of json.dumps with its default arguments (ensure_ascii,
separators comma-space and colon-space); none models the TypeError raised
on a non-serializable object. -/
def dumpsV : JVal → Option String
  | .jstr s => some (jsonQuote s)
  | .jint n => some (toString n)
  | .jnum q => some (ratText q)
  | .jbool b => some (if b then "true" else "false")
  | .jnull => some "null"
  | .jlist xs => do
    let parts ← dumpsL xs
    pure ("[" ++ commaJoin parts ++ "]")
  | .jobj kvs => do
    let parts ← dumpsO kvs
    pure (String.mk [lbraceC] ++ commaJoin parts ++ String.mk [rbraceC])
  | .nonSer => none

def dumpsL : List JVal → Option (List String)
  | [] => some []
  | x :: xs => do
    let s ← dumpsV x
    let tl ← dumpsL xs
    pure (s :: tl)

def dumpsO : List (String × JVal) → Option (List String)
  | [] => some []
  | kv :: rest => do
    let v ← dumpsV kv.2
    let tl ← dumpsO rest
    pure ((jsonQuote kv.1 ++ ": " ++ v) :: tl)

end

/-! ### json.loads

A strict recursive-descent reader; in particular a backslash followed by
anything other than a valid JSON escape is rejected, exactly as
json.loads rejects it, because the redaction substitution can corrupt an
escape sequence. -/

def jsonWs (c : Char) : Bool := c = ' ' || c = '\t' || c = '\n' || c = '\x0d'

def skipWs (cs : List Char) : List Char := cs.dropWhile jsonWs

def hexVal (c : Char) : Option Nat :=
  if isDigC c then some (c.toNat - 48)
  else if 97 ≤ c.toNat && c.toNat ≤ 102 then some (c.toNat - 87)
  else if 65 ≤ c.toNat && c.toNat ≤ 70 then some (c.toNat - 55)
  else none

def parseHex4 (cs : List Char) : Option (Nat × List Char) :=
  match cs with
  | a :: b :: c :: d :: rest => do
    let x ← hexVal a
    let y ← hexVal b
    let z ← hexVal c
    let w ← hexVal d
    pure (((x * 16 + y) * 16 + z) * 16 + w, rest)
  | _ => none

/-- Body of a JSON string after the opening quote. -/
def parseStrBody : Nat → List Char → Option (List Char × List Char)
  | 0, _ => none
  | _ + 1, [] => none
  | f + 1, c :: rest =>
    if c = '"' then some ([], rest)
    else if c = '\\' then
      match rest with
      | [] => none
      | e :: rest2 =>
        if e = '"' || e = '\\' || e = '/' then do
          let (tl, rem) ← parseStrBody f rest2
          pure (e :: tl, rem)
        else if e = 'n' then do
          let (tl, rem) ← parseStrBody f rest2
          pure ('\n' :: tl, rem)
        else if e = 't' then do
          let (tl, rem) ← parseStrBody f rest2
          pure ('\t' :: tl, rem)
        else if e = 'r' then do
          let (tl, rem) ← parseStrBody f rest2
          pure ('\x0d' :: tl, rem)
        else if e = 'b' then do
          let (tl, rem) ← parseStrBody f rest2
          pure ('\x08' :: tl, rem)
        else if e = 'f' then do
          let (tl, rem) ← parseStrBody f rest2
          pure ('\x0c' :: tl, rem)
        else if e = 'u' then do
          let (n, rest3) ← parseHex4 rest2
          let (tl, rem) ← parseStrBody f rest3
          pure (Char.ofNat n :: tl, rem)
        else none
    else if c.toNat < 32 then none
    else do
      let (tl, rem) ← parseStrBody f rest
      pure (c :: tl, rem)

def digRun (cs : List Char) : List Char × List Char :=
  (cs.takeWhile isDigC, cs.dropWhile isDigC)

def digitsToNat (ds : List Char) : Nat :=
  ds.foldl (fun acc c => acc * 10 + (c.toNat - 48)) 0

/-- JSON number after an optional leading minus has been noted: integer
part without leading zeros, optional fraction, optional exponent. -/
def parseNumTail (neg : Bool) (cs : List Char) : Option (JVal × List Char) :=
  let (ip, rest) := digRun cs
  if ip = [] then none
  else if ip.length > 1 && ip.head? = some '0' then none
  else
    let iv : ℚ := (digitsToNat ip : ℚ)
    match rest with
    | '.' :: rest2 =>
      let (fp, rest3) := digRun rest2
      if fp = [] then none
      else
        let q : ℚ := iv + (digitsToNat fp : ℚ) / ((10 : ℚ) ^ fp.length)
        some (.jnum (if neg then -q else q), rest3)
    | _ =>
      if neg then some (.jint (-(digitsToNat ip : Int)), rest)
      else some (.jint (digitsToNat ip : Int), rest)

mutual

def parseV : Nat → List Char → Option (JVal × List Char)
  | 0, _ => none
  | f + 1, cs =>
    match skipWs cs with
    | [] => none
    | c :: rest =>
      if c = '"' then do
        let (body, rem) ← parseStrBody (rest.length + 1) rest
        pure (.jstr (String.mk body), rem)
      else if c = lbraceC then
        match skipWs rest with
        | d :: rest2 =>
          if d = rbraceC then some (.jobj [], rest2)
          else parseMembers f (d :: rest2) >>= fun kr => pure (.jobj kr.1, kr.2)
        | [] => none
      else if c = '[' then
        match skipWs rest with
        | d :: rest2 =>
          if d = ']' then some (.jlist [], rest2)
          else parseItems f (d :: rest2) >>= fun xr => pure (.jlist xr.1, xr.2)
        | [] => none
      else if c = 't' then
        match rest with
        | 'r' :: 'u' :: 'e' :: rem => some (.jbool true, rem)
        | _ => none
      else if c = 'f' then
        match rest with
        | 'a' :: 'l' :: 's' :: 'e' :: rem => some (.jbool false, rem)
        | _ => none
      else if c = 'n' then
        match rest with
        | 'u' :: 'l' :: 'l' :: rem => some (.jnull, rem)
        | _ => none
      else if c = '-' then parseNumTail true rest
      else if isDigC c then parseNumTail false (c :: rest)
      else none

def parseMembers : Nat → List Char → Option (List (String × JVal) × List Char)
  | 0, _ => none
  | f + 1, cs =>
    match skipWs cs with
    | '"' :: rest => do
      let (kb, rem) ← parseStrBody (rest.length + 1) rest
      match skipWs rem with
      | ':' :: rem2 => do
        let (v, rem3) ← parseV f rem2
        match skipWs rem3 with
        | ',' :: rem4 => do
          let (tl, rem5) ← parseMembers f rem4
          pure ((String.mk kb, v) :: tl, rem5)
        | e :: rem4 =>
          if e = rbraceC then pure ([(String.mk kb, v)], rem4) else none
        | [] => none
      | _ => none
    | _ => none

def parseItems : Nat → List Char → Option (List JVal × List Char)
  | 0, _ => none
  | f + 1, cs => do
    let (v, rem) ← parseV f cs
    match skipWs rem with
    | ',' :: rem2 => do
      let (tl, rem3) ← parseItems f rem2
      pure (v :: tl, rem3)
    | ']' :: rem2 => pure ([v], rem2)
    | _ => none

end

/-- Embedding of json.loads; none models the JSONDecodeError. -/
def loadsV (s : String) : Option JVal :=
  match parseV (s.data.length + 1) s.data with
  | some (v, rem) => if skipWs rem = [] then some v else none
  | none => none

/-! ## The redactor (client.py WatchLLMClient._redact_pii) -/

inductive RedactErr where
  | typeError
  | decodeError
deriving DecidableEq

/-- Embedding of _redact_pii: identity when the redact_pii flag is off;
otherwise json.dumps the whole event, substitute the email pattern then
the credit-card pattern, and json.loads the result.  An Except.error
models an exception escaping _redact_pii. -/
def redactPii (flag : Bool) (event_dict : JVal) : Except RedactErr JVal :=
  if !flag then .ok event_dict
  else
    match dumpsV event_dict with
    | none => .error .typeError
    | some event_str =>
      match loadsV (ccSubStr (emailSubStr event_str)) with
      | some v => .ok v
      | none => .error .decodeError

/-! ## Cost estimation

Two independent tables exist in the source: MODEL_PRICING with
calculate_cost in instrumentation.py, and the inline pricing dict of
WatchLLMClient._calculate_cost_estimate in client.py.  Prices are per
1000 tokens and are modelled as exact rationals. -/

def strIsPref (p s : String) : Bool := p.data.isPrefixOf s.data

def strContains (hay needle : String) : Bool :=
  hay.data.tails.any fun t => needle.data.isPrefixOf t

/-- The MODEL_PRICING table of instrumentation.py, in source (dict
insertion) order; each entry is (model, input price, output price). -/
def MODEL_PRICING : List (String × ℚ × ℚ) :=
  [("gpt-4o", 25/10000, 1/100),
   ("gpt-4o-2024-11-20", 25/10000, 1/100),
   ("gpt-4o-2024-08-06", 25/10000, 1/100),
   ("gpt-4o-2024-05-13", 5/1000, 15/1000),
   ("gpt-4o-mini", 15/100000, 6/10000),
   ("gpt-4o-mini-2024-07-18", 15/100000, 6/10000),
   ("gpt-4-turbo", 1/100, 3/100),
   ("gpt-4-turbo-2024-04-09", 1/100, 3/100),
   ("gpt-4-turbo-preview", 1/100, 3/100),
   ("gpt-4-1106-preview", 1/100, 3/100),
   ("gpt-4", 3/100, 6/100),
   ("gpt-4-0613", 3/100, 6/100),
   ("gpt-3.5-turbo", 5/10000, 15/10000),
   ("gpt-3.5-turbo-0125", 5/10000, 15/10000),
   ("gpt-3.5-turbo-1106", 1/1000, 2/1000),
   ("o1", 15/1000, 6/100),
   ("o1-2024-12-17", 15/1000, 6/100),
   ("o1-preview", 15/1000, 6/100),
   ("o1-mini", 3/1000, 12/1000),
   ("o1-mini-2024-09-12", 3/1000, 12/1000),
   ("claude-3-5-sonnet-20241022", 3/1000, 15/1000),
   ("claude-3-5-sonnet-20240620", 3/1000, 15/1000),
   ("claude-3-5-haiku-20241022", 8/10000, 4/1000),
   ("claude-3-opus-20240229", 15/1000, 75/1000),
   ("claude-3-sonnet-20240229", 3/1000, 15/1000),
   ("claude-3-haiku-20240307", 25/100000, 125/100000),
   ("claude-2.1", 8/1000, 24/1000),
   ("claude-2.0", 8/1000, 24/1000),
   ("claude-instant-1.2", 8/10000, 24/10000),
   ("text-embedding-3-small", 2/100000, 0),
   ("text-embedding-3-large", 13/100000, 0),
   ("text-embedding-ada-002", 1/10000, 0)]

/-- Embedding of instrumentation.calculate_cost: exact match, then first
prefix match in table order, then coarse family heuristics, then a
generic default. -/
def calculate_cost (model : String) (tokens_input tokens_output : Int) : ℚ :=
  let exact := MODEL_PRICING.lookup model
  let byPref : Option (ℚ × ℚ) :=
    match exact with
    | some p => some p
    | none =>
      match MODEL_PRICING.find? fun kv => strIsPref kv.1 model with
      | some kv => some kv.2
      | none => none
  let pricing : ℚ × ℚ :=
    match byPref with
    | some p => p
    | none =>
      if strContains model "gpt-4" then (3/100, 6/100)
      else if strContains model "gpt-3" || strContains model "gpt-35" then (1/1000, 2/1000)
      else if strContains model "claude" then (3/1000, 15/1000)
      else (1/1000, 2/1000)
  ((tokens_input : ℚ) * pricing.1 + (tokens_output : ℚ) * pricing.2) / 1000

/-- The inline pricing dict of WatchLLMClient._calculate_cost_estimate. -/
def clientPricing : List (String × ℚ × ℚ) :=
  [("gpt-4o", 5/1000, 15/1000),
   ("gpt-4o-mini", 15/100000, 6/10000),
   ("gpt-3.5-turbo", 5/10000, 15/10000),
   ("gpt-4-turbo", 1/100, 3/100),
   ("claude-3-5-sonnet-20241022", 3/1000, 15/1000)]

/-- Embedding of WatchLLMClient._calculate_cost_estimate. -/
def calculate_cost_estimate (model : String) (tokens_input tokens_output : Int) : ℚ :=
  let model_pricing :=
    match clientPricing.lookup model with
    | some p => p
    | none =>
      if strContains model "gpt-4" then (3/100, 6/100)
      else (1/1000, 2/1000)
  ((tokens_input : ℚ) * model_pricing.1 + (tokens_output : ℚ) * model_pricing.2) / 1000

/-! ## Event model (client.py dataclasses)

The dataclass hierarchy is flattened: base-envelope fields come first in
each structure, in dataclass field order, and asdict reproduces that
order.  Enum-valued status fields are already normalized to their string
tags, as __post_init__ does.  uuid4 ids and wall-clock timestamps are
impure and therefore appear as explicit parameters at each use site. -/

def defaultClientDescr : JVal :=
  .jobj [("sdk_version", .jstr "0.1.0"), ("platform", .jstr "python"),
         ("hostname", .jstr "unknown")]

structure ToolCallEv where
  tool_name : String
  input : JVal
  output : JVal
  latency_ms : Int
  status : String
  tool_id : Option String
  error : Option JVal

structure PromptCallEvent where
  event_id : String
  project_id : String
  run_id : String
  timestamp : String
  user_id : Option String
  tags : List String
  release : Option String
  env : String
  client : JVal
  event_type : String
  prompt : String
  prompt_template_id : Option String
  model : String
  model_version : Option String
  tokens_input : Int
  tokens_output : Int
  cost_estimate_usd : ℚ
  response : String
  response_metadata : JVal
  tool_calls : List ToolCallEv
  status : String
  error : Option JVal
  latency_ms : Int

structure AgentStepEvent where
  event_id : String
  project_id : String
  run_id : String
  timestamp : String
  user_id : Option String
  tags : List String
  release : Option String
  env : String
  client : JVal
  event_type : String
  step_number : Int
  step_name : String
  step_type : String
  input_data : JVal
  output_data : JVal
  reasoning : Option String
  context : JVal
  latency_ms : Int
  status : String
  error : Option JVal

structure ErrorEvent where
  event_id : String
  project_id : String
  run_id : String
  timestamp : String
  user_id : Option String
  tags : List String
  release : Option String
  env : String
  client : JVal
  event_type : String
  error : JVal
  context : JVal
  stack_trace : Option String

inductive Event where
  | prompt (e : PromptCallEvent)
  | step (e : AgentStepEvent)
  | err (e : ErrorEvent)

def optStr : Option String → JVal
  | none => .jnull
  | some s => .jstr s

def optJ : Option JVal → JVal
  | none => .jnull
  | some v => v

def asdictToolCall (t : ToolCallEv) : JVal :=
  .jobj [("tool_name", .jstr t.tool_name), ("input", t.input), ("output", t.output),
         ("latency_ms", .jint t.latency_ms), ("status", .jstr t.status),
         ("tool_id", optStr t.tool_id), ("error", optJ t.error)]

def asdictPrompt (e : PromptCallEvent) : JVal :=
  .jobj [("event_id", .jstr e.event_id), ("project_id", .jstr e.project_id),
         ("run_id", .jstr e.run_id), ("timestamp", .jstr e.timestamp),
         ("user_id", optStr e.user_id), ("tags", .jlist (e.tags.map .jstr)),
         ("release", optStr e.release), ("env", .jstr e.env), ("client", e.client),
         ("event_type", .jstr e.event_type), ("prompt", .jstr e.prompt),
         ("prompt_template_id", optStr e.prompt_template_id), ("model", .jstr e.model),
         ("model_version", optStr e.model_version), ("tokens_input", .jint e.tokens_input),
         ("tokens_output", .jint e.tokens_output), ("cost_estimate_usd", .jnum e.cost_estimate_usd),
         ("response", .jstr e.response), ("response_metadata", e.response_metadata),
         ("tool_calls", .jlist (e.tool_calls.map asdictToolCall)),
         ("status", .jstr e.status), ("error", optJ e.error), ("latency_ms", .jint e.latency_ms)]

def asdictStep (e : AgentStepEvent) : JVal :=
  .jobj [("event_id", .jstr e.event_id), ("project_id", .jstr e.project_id),
         ("run_id", .jstr e.run_id), ("timestamp", .jstr e.timestamp),
         ("user_id", optStr e.user_id), ("tags", .jlist (e.tags.map .jstr)),
         ("release", optStr e.release), ("env", .jstr e.env), ("client", e.client),
         ("event_type", .jstr e.event_type), ("step_number", .jint e.step_number),
         ("step_name", .jstr e.step_name), ("step_type", .jstr e.step_type),
         ("input_data", e.input_data), ("output_data", e.output_data),
         ("reasoning", optStr e.reasoning), ("context", e.context),
         ("latency_ms", .jint e.latency_ms), ("status", .jstr e.status),
         ("error", optJ e.error)]

def asdictError (e : ErrorEvent) : JVal :=
  .jobj [("event_id", .jstr e.event_id), ("project_id", .jstr e.project_id),
         ("run_id", .jstr e.run_id), ("timestamp", .jstr e.timestamp),
         ("user_id", optStr e.user_id), ("tags", .jlist (e.tags.map .jstr)),
         ("release", optStr e.release), ("env", .jstr e.env), ("client", e.client),
         ("event_type", .jstr e.event_type), ("error", e.error), ("context", e.context),
         ("stack_trace", optStr e.stack_trace)]

def asdictEvent : Event → JVal
  | .prompt e => asdictPrompt e
  | .step e => asdictStep e
  | .err e => asdictError e

/-! ## Sampler, delivery queue and the log methods -/

/-- Embedding of WatchLLMClient._should_sample; rnd stands for the value
drawn from random.random(), assumed in the unit interval. -/
def shouldSample (sample_rate rnd : ℚ) : Bool :=
  sample_rate ≥ 1 || (sample_rate > 0 && rnd < sample_rate)

/-- The queue.Queue(maxsize=1000) capacity hardcoded in __init__. -/
def QUEUE_MAXSIZE : Nat := 1000

/-- Diagnostics printed by the client; an Option LogLine result field
models whether a warning line was printed. -/
inductive LogLine where
  | queueFull
  | failedToQueue
  | flushFailed
deriving DecidableEq

structure QueueOutcome where
  queue : List JVal
  log : Option LogLine

/-- Embedding of WatchLLMClient._queue_event: sample, asdict, redact,
non-blocking put.  queue.Full is caught and logged; every other
exception (in particular one escaping _redact_pii) is caught and logged;
nothing propagates to the producer, which the total return type
witnesses. -/
def queueEvent (redact_flag : Bool) (sample_rate rnd : ℚ) (q : List JVal)
    (event : Event) : QueueOutcome :=
  if !shouldSample sample_rate rnd then ⟨q, none⟩
  else
    match redactPii redact_flag (asdictEvent event) with
    | .ok event_dict =>
      if q.length < QUEUE_MAXSIZE then ⟨q ++ [event_dict], none⟩
      else ⟨q, some .queueFull⟩
    | .error _ => ⟨q, some .failedToQueue⟩

/-- Client configuration captured by __init__. -/
structure ClientCfg where
  api_key : String
  project_id : String
  base_url : String
  environment : String
  sample_rate : ℚ
  redact_pii : Bool
  batch_size : Nat
  flush_interval_seconds : Nat
  timeout : Nat

structure LogResult where
  returned_event_id : String
  queue : List JVal
  log : Option LogLine

/-- The PromptCallEvent construction inside log_prompt_call (with the
__post_init__ defaults already applied to the optional arguments by the
caller-side getD translations of the `or` fallbacks). -/
def mkPromptCallEvent (cfg : ClientCfg) (event_id timestamp : String)
    (run_id prompt model response : String)
    (tokens_input tokens_output latency_ms : Int)
    (status : String) (error : Option JVal)
    (prompt_template_id model_version : Option String)
    (response_metadata : Option JVal) (tool_calls : List ToolCallEv)
    (tags : Option (List String)) (user_id release : Option String) : PromptCallEvent :=
  { event_id := event_id, project_id := cfg.project_id, run_id := run_id,
    timestamp := timestamp, user_id := user_id, tags := tags.getD [],
    release := release, env := cfg.environment, client := defaultClientDescr,
    event_type := "prompt_call", prompt := prompt,
    prompt_template_id := prompt_template_id, model := model,
    model_version := model_version, tokens_input := tokens_input,
    tokens_output := tokens_output,
    cost_estimate_usd := calculate_cost_estimate model tokens_input tokens_output,
    response := response, response_metadata := response_metadata.getD (.jobj []),
    tool_calls := tool_calls, status := status, error := error,
    latency_ms := latency_ms }

/-- Embedding of WatchLLMClient.log_prompt_call.  The fresh uuid4 and the
timestamp are parameters; the returned event id is the first component,
produced whether or not the event was admitted. -/
def log_prompt_call (cfg : ClientCfg) (q : List JVal) (event_id timestamp : String)
    (rnd : ℚ) (run_id prompt model response : String)
    (tokens_input tokens_output latency_ms : Int)
    (status : String) (error : Option JVal)
    (prompt_template_id model_version : Option String)
    (response_metadata : Option JVal) (tool_calls : List ToolCallEv)
    (tags : Option (List String)) (user_id release : Option String) : LogResult :=
  let event := mkPromptCallEvent cfg event_id timestamp run_id prompt model response
    tokens_input tokens_output latency_ms status error prompt_template_id
    model_version response_metadata tool_calls tags user_id release
  let out := queueEvent cfg.redact_pii cfg.sample_rate rnd q (.prompt event)
  ⟨event_id, out.queue, out.log⟩

/-- Embedding of WatchLLMClient.log_agent_step. -/
def log_agent_step (cfg : ClientCfg) (q : List JVal) (event_id timestamp : String)
    (rnd : ℚ) (run_id : String) (step_number : Int) (step_name step_type : String)
    (input_data output_data : JVal) (latency_ms : Int) (status : String)
    (reasoning : Option String) (context : Option JVal) (error : Option JVal)
    (tags : Option (List String)) (user_id release : Option String) : LogResult :=
  let event : AgentStepEvent :=
    { event_id := event_id, project_id := cfg.project_id, run_id := run_id,
      timestamp := timestamp, user_id := user_id, tags := tags.getD [],
      release := release, env := cfg.environment, client := defaultClientDescr,
      event_type := "agent_step", step_number := step_number,
      step_name := step_name, step_type := step_type, input_data := input_data,
      output_data := output_data, reasoning := reasoning,
      context := context.getD (.jobj []), latency_ms := latency_ms,
      status := status, error := error }
  let out := queueEvent cfg.redact_pii cfg.sample_rate rnd q (.step event)
  ⟨event_id, out.queue, out.log⟩

/-- Python exception identity: type name and message.  Re-raising the
same value models re-raising the same exception object. -/
structure PyExc where
  ty : String
  message : String
deriving DecidableEq

/-- The error argument of log_error: either an Exception instance or an
already-shaped error dict. -/
inductive ErrArg where
  | exc (e : PyExc)
  | dict (d : JVal)

def jvalGet (d : JVal) (k : String) : Option JVal :=
  match d with
  | .jobj kvs => kvs.lookup k
  | _ => none

def jvalGetStr (d : JVal) (k : String) : Option String :=
  match jvalGet d k with
  | some (.jstr s) => some s
  | _ => none

/-- Embedding of WatchLLMClient.log_error; stack_text stands for
traceback.format_exc(). -/
def log_error (cfg : ClientCfg) (q : List JVal) (event_id timestamp : String)
    (rnd : ℚ) (run_id : String) (error : ErrArg) (stack_text : String)
    (context : Option JVal) (tags : Option (List String))
    (user_id release : Option String) : LogResult :=
  let error_dict : JVal :=
    match error with
    | .exc e => .jobj [("message", .jstr e.message), ("type", .jstr e.ty),
                       ("stack", .jstr stack_text)]
    | .dict d => d
  let event : ErrorEvent :=
    { event_id := event_id, project_id := cfg.project_id, run_id := run_id,
      timestamp := timestamp, user_id := user_id, tags := tags.getD [],
      release := release, env := cfg.environment, client := defaultClientDescr,
      event_type := "error", error := error_dict,
      context := context.getD (.jobj []),
      stack_trace := jvalGetStr error_dict "stack" }
  let out := queueEvent cfg.redact_pii cfg.sample_rate rnd q (.err event)
  ⟨event_id, out.queue, out.log⟩

/-! ## Flush, transport and shutdown

The HTTP transport is impure: a delivery attempt for one batch is a
parameter function returning ok or the requests exception that
session.post / raise_for_status (after the adapter-level retries) ends
with. -/

/-- Embedding of WatchLLMClient._send_events_batch: performs the POST and
re-raises any RequestException unchanged. -/
def send_events_batch (transport : List JVal → Except PyExc Unit)
    (events : List JVal) : Except PyExc Unit :=
  match transport events with
  | .ok u => .ok u
  | .error e => .error e

/-- The hard per-flush drain cap in WatchLLMClient.flush. -/
def FLUSH_MAX_BATCH : Nat := 100

structure FlushResult where
  handed : List JVal
  queue : List JVal
  log : Option LogLine

/-- Embedding of WatchLLMClient.flush: drain up to 100 events, send them
as one batch, and on any exception print a line and return normally —
the drained events are not put back and nothing is re-raised, which the
total return type witnesses. -/
def flush (transport : List JVal → Except PyExc Unit) (q : List JVal) : FlushResult :=
  let events := q.take FLUSH_MAX_BATCH
  if events.isEmpty then ⟨[], q, none⟩
  else
    match send_events_batch transport events with
    | .ok _ => ⟨events, q.drop FLUSH_MAX_BATCH, none⟩
    | .error _ => ⟨events, q.drop FLUSH_MAX_BATCH, some .flushFailed⟩

structure CloseResult where
  handed : List JVal
  remaining : List JVal
  log : Option LogLine

/-- Embedding of WatchLLMClient.close: set the shutdown flag, run one
final flush with its own failure swallowed, join the worker, close the
session.  remaining is what is still in the queue when the scheduler is
gone. -/
def close (transport : List JVal → Except PyExc Unit) (q : List JVal) : CloseResult :=
  let f := flush transport q
  ⟨f.handed, f.queue, f.log⟩

/-! ## Run context propagation (instrumentation.py)

The thread-local _run_id_context is modelled as an explicit record for
one logical thread; a missing attribute (getattr default None) is none. -/

structure RunCtx where
  run_id : Option String
  user_id : Option String
  tags : Option (List String)
deriving DecidableEq

/-- Embedding of get_current_run_id; fresh_id stands for the str(uuid4())
drawn on this particular call, so an unset context returns whatever this
call freshly generated — nothing is cached in the context. -/
def get_current_run_id (ctx : RunCtx) (fresh_id : String) : String :=
  match ctx.run_id with
  | none => fresh_id
  | some r => r

/-- The context installed on entry to trace: run_id or str(uuid4()) (the
Python `or` treats the empty string as absent), user_id as given, tags or
the empty list. -/
def traceEnter (rid uid : Option String) (tgs : Option (List String))
    (fresh_id : String) : RunCtx :=
  { run_id := some (match rid with
      | some r => if r = "" then fresh_id else r
      | none => fresh_id),
    user_id := uid,
    tags := some (match tgs with
      | some t => if t = [] then [] else t
      | none => []) }

/-- Embedding of the trace context manager for one logical thread: the
body runs against the entered context and may itself rewrite the ambient
state (nested scopes); the finally block writes the three saved values
back on both exit paths. -/
def trace {α : Type} (ctx : RunCtx) (rid uid : Option String)
    (tgs : Option (List String)) (fresh_id : String)
    (body : RunCtx → Except PyExc (α × RunCtx)) : Except PyExc α × RunCtx :=
  let old_run_id := ctx.run_id
  let old_user_id := ctx.user_id
  let old_tags := ctx.tags
  match body (traceEnter rid uid tgs fresh_id) with
  | .ok av => (.ok av.1, ⟨old_run_id, old_user_id, old_tags⟩)
  | .error e => (.error e, ⟨old_run_id, old_user_id, old_tags⟩)

/-! ## Provider extraction helpers (instrumentation.py) -/

/-- One element of a multimodal content list; only dict items with type
"text" contribute their text. -/
structure MMItem where
  ty : String
  text : String

inductive MsgContent where
  | text (s : String)
  | parts (items : List MMItem)

structure Msg where
  role : String
  content : MsgContent

/-- Embedding of _extract_openai_messages. -/
def extract_openai_messages (messages : List Msg) : String :=
  String.intercalate "\n" (messages.map fun m =>
    let contentStr :=
      match m.content with
      | .text s => s
      | .parts items =>
        String.intercalate " " ((items.filter fun it => it.ty = "text").map fun it => it.text)
    "[" ++ m.role ++ "]: " ++ contentStr)

structure OAIMessage where
  content : Option String

structure OAIChoice where
  message : Option OAIMessage
  finish_reason : Option String

structure OAIUsage where
  prompt_tokens : Int
  completion_tokens : Int
  total_tokens : Int

structure OAIResponse where
  choices : List OAIChoice
  usage : Option OAIUsage

/-- Embedding of _extract_openai_response (the legacy choice.text branch
degrades to the same empty default here). -/
def extract_openai_response (r : OAIResponse) : String :=
  match r.choices.head? with
  | some ch =>
    match ch.message with
    | some m => m.content.getD ""
    | none => ""
  | none => ""

/-- Embedding of _extract_openai_usage restricted to the two counts the
wrapper reads. -/
def extract_openai_usage (r : OAIResponse) : Int × Int :=
  match r.usage with
  | some u => (u.prompt_tokens, u.completion_tokens)
  | none => (0, 0)

/-- Embedding of _extract_anthropic_messages. -/
def extract_anthropic_messages (messages : List Msg) (system : Option String) : String :=
  let msgParts := messages.map fun m =>
    let contentStr :=
      match m.content with
      | .text s => s
      | .parts items =>
        String.intercalate " " ((items.filter fun it => it.ty = "text").map fun it => it.text)
    "[" ++ m.role ++ "]: " ++ contentStr
  let parts :=
    match system with
    | some s => ("[system]: " ++ s) :: msgParts
    | none => msgParts
  String.intercalate "\n" parts

structure AnthBlock where
  text : Option String

structure AnthUsage where
  input_tokens : Int
  output_tokens : Int

structure AnthResponse where
  content : List AnthBlock
  usage : Option AnthUsage
  stop_reason : Option String

/-- Embedding of _extract_anthropic_response. -/
def extract_anthropic_response (r : AnthResponse) : String :=
  String.intercalate " " (r.content.filterMap fun b => b.text)

/-- Embedding of _extract_anthropic_usage. -/
def extract_anthropic_usage (r : AnthResponse) : Int × Int :=
  match r.usage with
  | some u => (u.input_tokens, u.output_tokens)
  | none => (0, 0)

/-- Error info dict built in the wrapper except-branches; stack_text
stands for traceback.format_exc(). -/
def excInfo (e : PyExc) (stack_text : String) : JVal :=
  .jobj [("message", .jstr e.message), ("type", .jstr e.ty),
         ("stack", .jstr stack_text)]

/-! ## Observing wrappers (instrumentation.py)

A wrapper invocation is modelled by its observable effects: the value or
exception handed back to the caller, the queue of the global client
afterwards, and the list of PromptCall events passed to
log_prompt_call (the finally block runs on both paths, so there is one
event per instrumented call).  The original callable's outcome, the
latency measurement, uuid4, the timestamp, random.random and the
traceback text are parameters. -/

structure WrapOut (ρ : Type) where
  result : Except PyExc ρ
  queue : List JVal
  emitted : List PromptCallEvent

/-- Embedding of the synchronous wrapper produced by
_wrap_openai_chat_completions_create. -/
def wrap_openai_chat_create (instrumentation_enabled : Bool)
    (global_client : Option ClientCfg) (ctx : RunCtx)
    (model : String) (messages : List Msg)
    (callResult : Except PyExc OAIResponse)
    (latency_ms : Int) (event_id timestamp fresh_run_id stack_text : String)
    (rnd : ℚ) (q : List JVal) : WrapOut OAIResponse :=
  if !instrumentation_enabled || global_client.isNone then
    ⟨callResult, q, []⟩
  else
    let cfg := global_client.getD
      ⟨"", "", "", "", 1, true, 10, 5, 30⟩
    let prompt := extract_openai_messages messages
    let error_info : Option JVal :=
      match callResult with
      | .ok _ => none
      | .error e => some (excInfo e stack_text)
    let status :=
      match callResult with
      | .ok _ => "success"
      | .error _ => "error"
    let response_text :=
      match callResult with
      | .ok r => extract_openai_response r
      | .error _ => ""
    let usage :=
      match callResult with
      | .ok r => extract_openai_usage r
      | .error _ => ((0 : Int), (0 : Int))
    let cost := calculate_cost model usage.1 usage.2
    let run_id := get_current_run_id ctx fresh_run_id
    let user_id := ctx.user_id
    let ctxTags := ctx.tags.getD []
    let finish_reason : Option String :=
      match callResult with
      | .ok r =>
        match r.choices.head? with
        | some ch => ch.finish_reason
        | none => none
      | .error _ => none
    let metadata : JVal :=
      .jobj [("provider", .jstr "openai"), ("cost_usd", .jnum cost),
             ("finish_reason", optStr finish_reason)]
    let event := mkPromptCallEvent cfg event_id timestamp run_id prompt model
      response_text usage.1 usage.2 latency_ms status error_info none none
      (some metadata) [] (some (["auto-instrumented", "openai"] ++ ctxTags))
      user_id none
    let out := queueEvent cfg.redact_pii cfg.sample_rate rnd q (.prompt event)
    ⟨callResult, out.queue, [event]⟩

/-- Embedding of the synchronous wrapper produced by
_wrap_anthropic_messages_create. -/
def wrap_anthropic_messages_create (instrumentation_enabled : Bool)
    (global_client : Option ClientCfg) (ctx : RunCtx)
    (model : String) (messages : List Msg) (system : Option String)
    (callResult : Except PyExc AnthResponse)
    (latency_ms : Int) (event_id timestamp fresh_run_id stack_text : String)
    (rnd : ℚ) (q : List JVal) : WrapOut AnthResponse :=
  if !instrumentation_enabled || global_client.isNone then
    ⟨callResult, q, []⟩
  else
    let cfg := global_client.getD
      ⟨"", "", "", "", 1, true, 10, 5, 30⟩
    let prompt := extract_anthropic_messages messages system
    let error_info : Option JVal :=
      match callResult with
      | .ok _ => none
      | .error e => some (excInfo e stack_text)
    let status :=
      match callResult with
      | .ok _ => "success"
      | .error _ => "error"
    let response_text :=
      match callResult with
      | .ok r => extract_anthropic_response r
      | .error _ => ""
    let usage :=
      match callResult with
      | .ok r => extract_anthropic_usage r
      | .error _ => ((0 : Int), (0 : Int))
    let cost := calculate_cost model usage.1 usage.2
    let run_id := get_current_run_id ctx fresh_run_id
    let user_id := ctx.user_id
    let ctxTags := ctx.tags.getD []
    let stop_reason : Option String :=
      match callResult with
      | .ok r => r.stop_reason
      | .error _ => none
    let metadata : JVal :=
      .jobj [("provider", .jstr "anthropic"), ("cost_usd", .jnum cost),
             ("stop_reason", optStr stop_reason)]
    let event := mkPromptCallEvent cfg event_id timestamp run_id prompt model
      response_text usage.1 usage.2 latency_ms status error_info none none
      (some metadata) [] (some (["auto-instrumented", "anthropic"] ++ ctxTags))
      user_id none
    let out := queueEvent cfg.redact_pii cfg.sample_rate rnd q (.prompt event)
    ⟨callResult, out.queue, [event]⟩

/-! ## Interception install/remove (instrumentation.py)

The patchable OpenAI surface is the three method attributes instrumented
by _instrument_openai, each with its _watchllm_instrumented marker, plus
the _original_methods dict.  A Callable value stands for a Python
function object; the wrap constructors stand for the new function objects
the _wrap_* factories return, so restoring the recorded original is
reference-exact iff the Callable values agree. -/

inductive Callable where
  | base (n : Nat)
  | wChat (f : Callable)
  | wChatAsync (f : Callable)
  | wEmb (f : Callable)
deriving DecidableEq

structure OpenAIMod where
  chatCreate : Callable
  chatCreateAsync : Callable
  embCreate : Callable
  chatMarked : Bool
  asyncMarked : Bool
  embMarked : Bool
deriving DecidableEq

structure InstrState where
  m : OpenAIMod
  originals : List (String × Callable)
deriving DecidableEq

/-- Python dict assignment: overwrite in place if the key exists,
otherwise append. -/
def dictSet (k : String) (v : Callable) (l : List (String × Callable)) :
    List (String × Callable) :=
  if l.any fun kv => kv.1 = k then
    l.map fun kv => if kv.1 = k then (k, v) else kv
  else l ++ [(k, v)]

/-- Embedding of _instrument_openai (the import succeeds): each of the
three targets is wrapped only if its marker attribute is absent, and the
original callable is recorded in _original_methods first. -/
def instrument_openai (st : InstrState) : InstrState :=
  let st1 :=
    if st.m.chatMarked then st
    else
      { m := { st.m with chatCreate := .wChat st.m.chatCreate, chatMarked := true },
        originals := dictSet "openai_chat_create" st.m.chatCreate st.originals }
  let st2 :=
    if st1.m.asyncMarked then st1
    else
      { m := { st1.m with
                 chatCreateAsync := .wChatAsync st1.m.chatCreateAsync,
                 asyncMarked := true },
        originals := dictSet "openai_chat_create_async" st1.m.chatCreateAsync st1.originals }
  if st2.m.embMarked then st2
  else
    { m := { st2.m with embCreate := .wEmb st2.m.embCreate, embMarked := true },
      originals := dictSet "openai_embeddings_create" st2.m.embCreate st2.originals }

/-- One restore block of _uninstrument_openai: put the recorded original
back and delete the marker attribute; delattr on an unmarked class raises
AttributeError, which aborts the remaining blocks (the outer except
returns False). -/
def uninstrChat (st : InstrState) : InstrState × Bool :=
  match st.originals.lookup "openai_chat_create" with
  | none => (st, true)
  | some f =>
    let st1 := { st with m := { st.m with chatCreate := f } }
    if st1.m.chatMarked then
      ({ st1 with m := { st1.m with chatMarked := false } }, true)
    else (st1, false)

def uninstrAsync (st : InstrState) : InstrState × Bool :=
  match st.originals.lookup "openai_chat_create_async" with
  | none => (st, true)
  | some f =>
    let st1 := { st with m := { st.m with chatCreateAsync := f } }
    if st1.m.asyncMarked then
      ({ st1 with m := { st1.m with asyncMarked := false } }, true)
    else (st1, false)

def uninstrEmb (st : InstrState) : InstrState × Bool :=
  match st.originals.lookup "openai_embeddings_create" with
  | none => (st, true)
  | some f =>
    let st1 := { st with m := { st.m with embCreate := f } }
    if st1.m.embMarked then
      ({ st1 with m := { st1.m with embMarked := false } }, true)
    else (st1, false)

/-- Embedding of _uninstrument_openai; the Bool is its return value. -/
def uninstrument_openai (st : InstrState) : InstrState × Bool :=
  let r1 := uninstrChat st
  if !r1.2 then (r1.1, false)
  else
    let r2 := uninstrAsync r1.1
    if !r2.2 then (r2.1, false)
    else uninstrEmb r2.1

/-! ## Concrete inputs used by the per-claim evaluations -/

/-- A transport whose delivery attempt always ends in the requests
exception that raise_for_status produces after retries are exhausted. -/
def c1FailTransport : List JVal → Except PyExc Unit :=
  fun _ => .error ⟨"HTTPError", "500 Server Error"⟩

def c1Event : JVal := .jobj [("event_id", .jstr "e1")]

def c4OkTransport : List JVal → Except PyExc Unit := fun _ => .ok ()

def c4Queue : List JVal := List.replicate 101 (.jobj [("event_id", .jstr "x")])

/-- An event whose context map holds a non-JSON-serializable object, so
asdict of it defeats json.dumps. -/
def c3Event : Event := .err
  { event_id := "e", project_id := "p", run_id := "r", timestamp := "t",
    user_id := none, tags := [], release := none, env := "development",
    client := defaultClientDescr, event_type := "error",
    error := .jobj [("message", .jstr "boom")],
    context := .jobj [("obj", .nonSer)], stack_trace := none }

def c3BadDict : JVal := .jobj [("x", .nonSer)]

def c8Email : JVal := .jobj [("k", .jstr "a@b.com")]

def c8Red : JVal := .jobj [("k", .jstr "[REDACTED_EMAIL]")]

/-- A perfectly serializable event map: one field whose text is a tab
character followed by an email.  json.dumps writes the tab as a
backslash-t escape, the email regex then consumes the t together with
the address, and json.loads rejects the resulting invalid escape. -/
def c8Bad : JVal := .jobj [("k", .jstr "\ta@b.com")]

def c9Event : Event := .prompt
  (mkPromptCallEvent ⟨"k", "p", "https://proxy.watchllm.dev/v1", "development",
      1, true, 10, 5, 30⟩ "e9" "t9" "r9" "hello" "gpt-4o" "hi" 10 5 100
    "success" none none none none [] none none none)

def c7Start : InstrState :=
  ⟨⟨.base 1, .base 2, .base 3, false, false, false⟩, []⟩

def c5Ctx : RunCtx := ⟨some "old-run", some "old-user", some ["old-tag"]⟩

def c5Body : RunCtx → Except PyExc (Unit × RunCtx) :=
  fun _ => .error ⟨"ValueError", "boom"⟩

end WatchLLM

namespace WatchLLM

/-! ## Helper lemmas -/

theorem lookupMapSet_self (k : String) (v : Callable) :
    ∀ l : List (String × Callable), (l.any fun kv => kv.1 = k) = true →
      (l.map fun kv => if kv.1 = k then (k, v) else kv).lookup k = some v := by
  intro l
  induction l with
  | nil => intro h; simp at h
  | cons kv tl ih =>
    obtain ⟨k1, v1⟩ := kv
    intro h
    by_cases hk : k1 = k
    · subst hk
      rw [List.map_cons, if_pos rfl, List.lookup_cons]
      simp
    · have h2 : (tl.any fun kv => kv.1 = k) = true := by
        simp only [List.any_cons, Bool.or_eq_true_iff] at h
        rcases h with h | h
        · exact absurd (of_decide_eq_true h) hk
        · exact h
      have hbk : (k == k1) = false := beq_eq_false_iff_ne.mpr fun hh => hk hh.symm
      rw [List.map_cons, if_neg hk, List.lookup_cons, hbk]
      exact ih h2

theorem lookupAppend_self (k : String) (v : Callable) :
    ∀ l : List (String × Callable), (l.any fun kv => kv.1 = k) = false →
      (l ++ [(k, v)]).lookup k = some v := by
  intro l
  induction l with
  | nil => intro _; rw [List.nil_append, List.lookup_cons]; simp
  | cons kv tl ih =>
    obtain ⟨k1, v1⟩ := kv
    intro h
    simp only [List.any_cons, Bool.or_eq_false_iff] at h
    have hbk : (k == k1) = false := by
      apply beq_eq_false_iff_ne.mpr
      intro hh
      have hkk : (decide (k1 = k)) = false := h.1
      rw [hh] at hkk
      simp at hkk
    rw [List.cons_append, List.lookup_cons, hbk]
    exact ih h.2

theorem lookupMapSet_other (k k2 : String) (v : Callable) (hk : k ≠ k2) :
    ∀ l : List (String × Callable),
      (l.map fun kv => if kv.1 = k2 then (k2, v) else kv).lookup k = l.lookup k := by
  intro l
  induction l with
  | nil => rfl
  | cons kv tl ih =>
    obtain ⟨k1, v1⟩ := kv
    by_cases h : k1 = k2
    · subst h
      have hbk : (k == k1) = false := beq_eq_false_iff_ne.mpr hk
      rw [List.map_cons, if_pos rfl, List.lookup_cons, hbk, List.lookup_cons, hbk]
      exact ih
    · rw [List.map_cons, if_neg h, List.lookup_cons, List.lookup_cons]
      cases hkk : (k == k1) with
      | true => rfl
      | false => exact ih

theorem lookupAppend_other (k k2 : String) (v : Callable) (hk : k ≠ k2) :
    ∀ l : List (String × Callable), (l ++ [(k2, v)]).lookup k = l.lookup k := by
  intro l
  induction l with
  | nil =>
    have hbk : (k == k2) = false := beq_eq_false_iff_ne.mpr hk
    rw [List.nil_append, List.lookup_cons, hbk]
  | cons kv tl ih =>
    obtain ⟨k1, v1⟩ := kv
    rw [List.cons_append, List.lookup_cons, List.lookup_cons]
    cases hkk : (k == k1) with
    | true => rfl
    | false => exact ih

theorem dictSet_lookup_self (k : String) (v : Callable) (l : List (String × Callable)) :
    (dictSet k v l).lookup k = some v := by
  unfold dictSet
  split
  · next h => exact lookupMapSet_self k v l h
  · next h => exact lookupAppend_self k v l (Bool.not_eq_true _ ▸ eq_false_of_ne_true h)

theorem dictSet_lookup_other (k k2 : String) (v : Callable)
    (l : List (String × Callable)) (hk : k ≠ k2) :
    (dictSet k2 v l).lookup k = l.lookup k := by
  unfold dictSet
  split
  · exact lookupMapSet_other k k2 v hk l
  · exact lookupAppend_other k k2 v hk l

/-! ## Claim theorems -/

/-- C2, counterexample: the cost function actually used by
log_prompt_call, WatchLLMClient._calculate_cost_estimate, prices gpt-4o
at 0.005 input and 0.015 output per 1k tokens, so 1000 input and 500
output tokens cost 0.0125 dollars, not the claimed 0.0075. -/
theorem c2_client_cost_counterexample :
    calculate_cost_estimate "gpt-4o" 1000 500 = 1/80 ∧ (1/80 : ℚ) ≠ 3/400 := by
  constructor
  · unfold calculate_cost_estimate
    rw [show clientPricing.lookup "gpt-4o" = some (5/1000, 15/1000) from rfl]
    norm_num
  · norm_num

/-- C2, amended: for gpt-4o with 1000 input and 500 output tokens the
instrumentation-side calculate_cost uses prices 0.0025 and 0.01 per 1k
tokens and returns exactly 0.0075, while the client-side
_calculate_cost_estimate uses prices 0.005 and 0.015 and returns 0.0125;
both apply (tokens_input * input_price + tokens_output * output_price)
divided by 1000. -/
theorem c2_cost_tables :
    calculate_cost "gpt-4o" 1000 500 = 3/400 ∧
    MODEL_PRICING.lookup "gpt-4o" = some (25/10000, 1/100) ∧
    calculate_cost_estimate "gpt-4o" 1000 500 = 1/80 ∧
    clientPricing.lookup "gpt-4o" = some (5/1000, 15/1000) := by
  refine ⟨?_, rfl, ?_, rfl⟩
  · unfold calculate_cost
    rw [show MODEL_PRICING.lookup "gpt-4o" = some (25/10000, 1/100) from rfl]
    norm_num
  · unfold calculate_cost_estimate
    rw [show clientPricing.lookup "gpt-4o" = some (5/1000, 15/1000) from rfl]
    norm_num

/-- C8, counterexample: the event map with single field k holding a tab
character followed by the address a@b.com is serializable (json.dumps
succeeds on it), yet redaction raises a JSONDecodeError instead of
returning a map: the email regex consumes the t of the backslash-t
escape, leaving an invalid backslash-bracket escape behind.  So neither
does every embedded email become the redaction token, nor is redaction a
total (hence idempotent) map on serializable events. -/
theorem c8_counterexample :
    (dumpsV c8Bad).isSome = true ∧ redactPii true c8Bad = .error .decodeError := by
  exact ⟨rfl, rfl⟩

/-- C8, amended: redaction is the identity when the redact_pii flag is
off; on the event map with field k holding exactly a@b.com it yields
the map with that field replaced by the [REDACTED_EMAIL] token, and
redacting that result again is a no-op; but on serializable maps whose
serialized form puts a backslash escape directly before an email the
redactor raises instead of returning a value. -/
theorem c8_redaction_amended :
    (∀ e : JVal, redactPii false e = .ok e) ∧
    redactPii true c8Email = .ok c8Red ∧
    redactPii true c8Red = .ok c8Red := by
  exact ⟨fun e => rfl, rfl, rfl⟩

/-- C3, counterexample: _redact_pii does not catch the serialization
failure itself: on an event map holding a non-serializable object it
raises (TypeError from json.dumps) rather than returning the original
event unredacted. -/
theorem c3_counterexample :
    redactPii true c3BadDict = .error .typeError ∧
    redactPii true c3BadDict ≠ .ok c3BadDict := by
  exact ⟨rfl, fun h => Except.noConfusion h⟩

/-- C3, amended: when serialization of the event fails and redaction is
on, the redactor raises; the enclosing _queue_event catches every
exception, logs a failed-to-queue warning and returns normally, so
nothing reaches the producer — but the event is dropped, not forwarded
unredacted. -/
theorem c3_redaction_failure_drops_event (event : Event) (sample_rate rnd : ℚ)
    (q : List JVal) (hs : shouldSample sample_rate rnd = true)
    (hser : dumpsV (asdictEvent event) = none) :
    redactPii true (asdictEvent event) = .error .typeError ∧
    queueEvent true sample_rate rnd q event = ⟨q, some .failedToQueue⟩ := by
  have hred : redactPii true (asdictEvent event) = .error .typeError := by
    unfold redactPii
    rw [hser]
    rfl
  refine ⟨hred, ?_⟩
  unfold queueEvent
  rw [hs]
  simp only [Bool.not_true, Bool.false_eq_true, if_false, hred]

/-- C3, witness for the amended theorem at a concrete error event whose
context holds a non-serializable object. -/
theorem c3_witness :
    shouldSample 1 0 = true ∧ dumpsV (asdictEvent c3Event) = none ∧
    queueEvent true 1 0 [] c3Event = ⟨[], some .failedToQueue⟩ :=
  ⟨by decide, rfl, (c3_redaction_failure_drops_event c3Event 1 0 [] (by decide) rfl).2⟩

/-- C1, counterexample: a manual flush of a one-event queue against a
transport that fails irrecoverably leaves the queue empty — the drained
event is not returned for a later attempt — and flush returns normally
with only a printed log line; no DeliveryError reaches the caller (flush
is total by construction, mirroring its catch-all except). -/
theorem c1_counterexample :
    (flush c1FailTransport [c1Event]).queue = [] ∧
    c1Event :: ([] : List JVal) ≠ [] ∧
    (flush c1FailTransport [c1Event]).log = some .flushFailed := by
  refine ⟨rfl, ?_, rfl⟩
  simp

/-- C1, amended: when the transport fails on the drained batch of a
manual flush, flush logs the failure and returns normally: the batch
(the first up-to-100 events) is gone from the queue and is not requeued,
and the error is swallowed rather than re-raised. -/
theorem c1_flush_failure_drops_batch (transport : List JVal → Except PyExc Unit)
    (q : List JVal) (e : PyExc) (hne : q ≠ [])
    (hfail : transport (q.take FLUSH_MAX_BATCH) = .error e) :
    flush transport q =
      ⟨q.take FLUSH_MAX_BATCH, q.drop FLUSH_MAX_BATCH, some .flushFailed⟩ := by
  unfold flush send_events_batch
  have hemp : (q.take FLUSH_MAX_BATCH).isEmpty = false := by
    cases q with
    | nil => exact absurd rfl hne
    | cons a t => rfl
  dsimp only
  rw [hemp, hfail]
  simp

/-- C1, witness for the amended theorem. -/
theorem c1_witness :
    ([c1Event] : List JVal) ≠ [] ∧
    flush c1FailTransport [c1Event] =
      ⟨[c1Event].take FLUSH_MAX_BATCH, [c1Event].drop FLUSH_MAX_BATCH,
        some .flushFailed⟩ :=
  ⟨by simp, c1_flush_failure_drops_batch c1FailTransport [c1Event]
    ⟨"HTTPError", "500 Server Error"⟩ (by simp) rfl⟩

/-- C4, counterexample: closing a client whose queue holds 101 events
hands only the first 100 to the transport even though the send succeeds;
one already-queued event remains undelivered when the scheduler stops. -/
theorem c4_counterexample :
    c4Queue.length = 101 ∧
    (close c4OkTransport c4Queue).handed.length = 100 ∧
    (close c4OkTransport c4Queue).remaining.length = 1 := by
  decide

/-- C4, amended: close performs exactly one final synchronous flush,
which hands at most the first 100 queued events to the transport; every
event beyond that cap remains in the queue when the scheduler stops,
whatever the transport outcome. -/
theorem c4_close_final_flush_cap (transport : List JVal → Except PyExc Unit)
    (q : List JVal) :
    (close transport q).handed = q.take FLUSH_MAX_BATCH ∧
    (close transport q).remaining = q.drop FLUSH_MAX_BATCH := by
  unfold close flush send_events_batch
  dsimp only
  cases hemp : (q.take FLUSH_MAX_BATCH).isEmpty with
  | true =>
    have hq : q.take FLUSH_MAX_BATCH = [] := by
      cases h : q.take FLUSH_MAX_BATCH with
      | nil => rfl
      | cons a t => rw [h] at hemp; exact absurd hemp (by simp)
    have hq2 : q = [] := by
      rcases List.take_eq_nil_iff.mp hq with h | h
      · simp [FLUSH_MAX_BATCH] at h
      · exact h
    subst hq2
    simp
  | false =>
    cases hsend : transport (q.take FLUSH_MAX_BATCH) with
    | ok u => constructor <;> rfl
    | error e => constructor <;> rfl

/-- C5: inside a trace scope opened with a non-empty run id X,
get_current_run_id returns X; on both exit paths (the body returning
normally or raising) the previous ambient run_id, user_id and tags are
restored exactly; and with no active scope every call returns the id
freshly generated by that call. -/
theorem c5_trace_scope_restores {α : Type} (ctx : RunCtx) (x : String)
    (uid : Option String) (tgs : Option (List String)) (fresh fresh2 : String)
    (body : RunCtx → Except PyExc (α × RunCtx)) (hx : x ≠ "") :
    get_current_run_id (traceEnter (some x) uid tgs fresh) fresh2 = x ∧
    (trace ctx (some x) uid tgs fresh body).2 = ctx ∧
    (∀ u t f, get_current_run_id ⟨none, u, t⟩ f = f) := by
  refine ⟨?_, ?_, fun u t f => rfl⟩
  · unfold traceEnter get_current_run_id
    simp [hx]
  · unfold trace
    cases hb : body (traceEnter (some x) uid tgs fresh) with
    | ok av => rfl
    | error e => rfl

/-- C5, witness: a concrete prior context, run id X and a raising body. -/
theorem c5_witness :
    "X" ≠ "" ∧
    (get_current_run_id (traceEnter (some "X") none none "f1") "f2" = "X" ∧
      (trace c5Ctx (some "X") none none "f1" c5Body).2 = c5Ctx ∧
      (∀ u t f, get_current_run_id ⟨none, u, t⟩ f = f)) :=
  ⟨by decide, c5_trace_scope_restores c5Ctx "X" none none "f1" "f2" c5Body (by decide)⟩

/-- C6: a wrapped provider call whose original callable raises emits
exactly one PromptCall event with status error and the error info
populated from the exception, and hands the very same exception value
back to the caller, for both the OpenAI chat wrapper and the Anthropic
messages wrapper. -/
theorem c6_wrappers_reraise_and_emit_one_error_event (cfg : ClientCfg)
    (ctx : RunCtx) (model : String) (messages : List Msg) (system : Option String)
    (e1 e2 : PyExc) (latency : Int) (eid ts fresh stack : String) (rnd : ℚ)
    (q1 q2 : List JVal) :
    (∃ ev : PromptCallEvent,
      (wrap_openai_chat_create true (some cfg) ctx model messages (.error e1)
          latency eid ts fresh stack rnd q1).result = .error e1 ∧
      (wrap_openai_chat_create true (some cfg) ctx model messages (.error e1)
          latency eid ts fresh stack rnd q1).emitted = [ev] ∧
      ev.status = "error" ∧ ev.error = some (excInfo e1 stack) ∧
      ev.event_type = "prompt_call") ∧
    (∃ ev : PromptCallEvent,
      (wrap_anthropic_messages_create true (some cfg) ctx model messages system
          (.error e2) latency eid ts fresh stack rnd q2).result = .error e2 ∧
      (wrap_anthropic_messages_create true (some cfg) ctx model messages system
          (.error e2) latency eid ts fresh stack rnd q2).emitted = [ev] ∧
      ev.status = "error" ∧ ev.error = some (excInfo e2 stack) ∧
      ev.event_type = "prompt_call") := by
  constructor
  · exact ⟨_, rfl, rfl, rfl, rfl, rfl⟩
  · exact ⟨_, rfl, rfl, rfl, rfl, rfl⟩

/-- C9: starting from any queue within the capacity of 1000, an enqueue
leaves the queue within capacity; into a full queue it leaves the queue
unchanged (the new event is dropped), and whenever the sampler admitted
the event and redaction succeeded, the drop is reported by the
queue-full log line; the producer never blocks or sees an exception,
which the total return type of queueEvent witnesses. -/
theorem c9_queue_never_exceeds_capacity (redact_flag : Bool)
    (sample_rate rnd : ℚ) (q : List JVal) (event : Event)
    (hq : q.length ≤ QUEUE_MAXSIZE) :
    (queueEvent redact_flag sample_rate rnd q event).queue.length ≤ QUEUE_MAXSIZE ∧
    (q.length = QUEUE_MAXSIZE →
      (queueEvent redact_flag sample_rate rnd q event).queue = q) ∧
    (q.length = QUEUE_MAXSIZE → shouldSample sample_rate rnd = true →
      ∀ d, redactPii redact_flag (asdictEvent event) = .ok d →
        (queueEvent redact_flag sample_rate rnd q event).log = some .queueFull) := by
  unfold queueEvent
  cases hs : shouldSample sample_rate rnd with
  | false =>
    refine ⟨hq, fun _ => rfl, fun _ hs2 => ?_⟩
    exact absurd hs2 (by simp)
  | true =>
    cases hr : redactPii redact_flag (asdictEvent event) with
    | ok d =>
      by_cases hlen : q.length < QUEUE_MAXSIZE
      · refine ⟨?_, fun hfull => ?_, fun hfull _ => ?_⟩
        · simp only [Bool.not_true, Bool.false_eq_true, if_false, hlen, if_true]
          simpa using hlen
        · omega
        · omega
      · refine ⟨?_, fun _ => ?_, fun _ _ d2 _ => ?_⟩
        · simp only [Bool.not_true, Bool.false_eq_true, if_false, hlen]
          exact hq
        · simp only [Bool.not_true, Bool.false_eq_true, if_false, hlen]
        · simp only [Bool.not_true, Bool.false_eq_true, if_false, hlen]
    | error err =>
      refine ⟨?_, fun _ => ?_, fun _ _ d2 hd2 => ?_⟩
      · exact hq
      · rfl
      · exact absurd hd2 (fun h => Except.noConfusion h)

/-- C9, witness: a full queue of 1000 empty maps and a plain prompt
event. -/
theorem c9_witness :
    (List.replicate QUEUE_MAXSIZE (JVal.jobj [])).length ≤ QUEUE_MAXSIZE ∧
    ((queueEvent true 1 0 (List.replicate QUEUE_MAXSIZE (JVal.jobj []))
        c9Event).queue.length ≤ QUEUE_MAXSIZE ∧
      ((List.replicate QUEUE_MAXSIZE (JVal.jobj [])).length = QUEUE_MAXSIZE →
        (queueEvent true 1 0 (List.replicate QUEUE_MAXSIZE (JVal.jobj []))
          c9Event).queue = List.replicate QUEUE_MAXSIZE (JVal.jobj [])) ∧
      ((List.replicate QUEUE_MAXSIZE (JVal.jobj [])).length = QUEUE_MAXSIZE →
        shouldSample 1 0 = true →
        ∀ d, redactPii true (asdictEvent c9Event) = .ok d →
          (queueEvent true 1 0 (List.replicate QUEUE_MAXSIZE (JVal.jobj []))
            c9Event).log = some .queueFull)) :=
  ⟨by simp, c9_queue_never_exceeds_capacity true 1 0
    (List.replicate QUEUE_MAXSIZE (JVal.jobj [])) c9Event (by simp)⟩

/-- C10: each of log_prompt_call, log_agent_step and log_error returns
the freshly generated event id handed to it, for every configuration,
queue state and sampling draw — hence identically whether the sampler
drops the event, the queue is full, or the event is enqueued. -/
theorem c10_log_methods_return_fresh_event_id (cfg : ClientCfg)
    (q1 q2 q3 : List JVal) (eid1 eid2 eid3 ts : String) (rnd : ℚ)
    (run_id prompt model response : String)
    (tokens_input tokens_output latency_ms : Int) (status : String)
    (error : Option JVal) (ptid mver : Option String) (rmeta : Option JVal)
    (tcs : List ToolCallEv) (tags : Option (List String))
    (uid rel : Option String) (step_number : Int) (step_name step_type : String)
    (input_data output_data : JVal) (reasoning : Option String)
    (context : Option JVal) (earg : ErrArg) (stack : String) :
    (log_prompt_call cfg q1 eid1 ts rnd run_id prompt model response
        tokens_input tokens_output latency_ms status error ptid mver rmeta
        tcs tags uid rel).returned_event_id = eid1 ∧
    (log_agent_step cfg q2 eid2 ts rnd run_id step_number step_name step_type
        input_data output_data latency_ms status reasoning context error
        tags uid rel).returned_event_id = eid2 ∧
    (log_error cfg q3 eid3 ts rnd run_id earg stack context tags uid
        rel).returned_event_id = eid3 :=
  ⟨rfl, rfl, rfl⟩

/-- C7: installing the OpenAI interception wrappers is idempotent on any
state — a second install is a complete no-op, so the original callables
stay recorded exactly once — and from any unpatched state, remove after
install restores each of the three original callable references exactly
and returns the targets to the unpatched state. -/
theorem c7_install_idempotent_remove_restores (st : InstrState)
    (h1 : st.m.chatMarked = false) (h2 : st.m.asyncMarked = false)
    (h3 : st.m.embMarked = false) :
    (∀ s : InstrState, instrument_openai (instrument_openai s) = instrument_openai s) ∧
    (instrument_openai st).originals.lookup "openai_chat_create" = some st.m.chatCreate ∧
    (instrument_openai st).originals.lookup "openai_chat_create_async" = some st.m.chatCreateAsync ∧
    (instrument_openai st).originals.lookup "openai_embeddings_create" = some st.m.embCreate ∧
    (uninstrument_openai (instrument_openai st)).1.m.chatCreate = st.m.chatCreate ∧
    (uninstrument_openai (instrument_openai st)).1.m.chatCreateAsync = st.m.chatCreateAsync ∧
    (uninstrument_openai (instrument_openai st)).1.m.embCreate = st.m.embCreate ∧
    (uninstrument_openai (instrument_openai st)).1.m.chatMarked = false ∧
    (uninstrument_openai (instrument_openai st)).1.m.asyncMarked = false ∧
    (uninstrument_openai (instrument_openai st)).1.m.embMarked = false ∧
    (uninstrument_openai (instrument_openai st)).2 = true := by
  have hidem : ∀ s : InstrState,
      instrument_openai (instrument_openai s) = instrument_openai s := by
    intro s
    obtain ⟨⟨c2, a2, em2, n1, n2, n3⟩, or2⟩ := s
    cases n1 <;> cases n2 <;> cases n3 <;> rfl
  obtain ⟨⟨c, a, em, m1, m2, m3⟩, orig⟩ := st
  simp only at h1 h2 h3
  subst h1; subst h2; subst h3
  have hinst : instrument_openai ⟨⟨c, a, em, false, false, false⟩, orig⟩ =
      ⟨⟨.wChat c, .wChatAsync a, .wEmb em, true, true, true⟩,
        dictSet "openai_embeddings_create" em
          (dictSet "openai_chat_create_async" a
            (dictSet "openai_chat_create" c orig))⟩ := rfl
  have lchat : (dictSet "openai_embeddings_create" em
      (dictSet "openai_chat_create_async" a
        (dictSet "openai_chat_create" c orig))).lookup "openai_chat_create" = some c := by
    rw [dictSet_lookup_other _ _ _ _ (by decide),
        dictSet_lookup_other _ _ _ _ (by decide), dictSet_lookup_self]
  have lasync : (dictSet "openai_embeddings_create" em
      (dictSet "openai_chat_create_async" a
        (dictSet "openai_chat_create" c orig))).lookup "openai_chat_create_async" =
      some a := by
    rw [dictSet_lookup_other _ _ _ _ (by decide), dictSet_lookup_self]
  have lemb : (dictSet "openai_embeddings_create" em
      (dictSet "openai_chat_create_async" a
        (dictSet "openai_chat_create" c orig))).lookup "openai_embeddings_create" =
      some em := dictSet_lookup_self _ _ _
  have huninst : uninstrument_openai
      ⟨⟨.wChat c, .wChatAsync a, .wEmb em, true, true, true⟩,
        dictSet "openai_embeddings_create" em
          (dictSet "openai_chat_create_async" a
            (dictSet "openai_chat_create" c orig))⟩ =
      (⟨⟨c, a, em, false, false, false⟩,
        dictSet "openai_embeddings_create" em
          (dictSet "openai_chat_create_async" a
            (dictSet "openai_chat_create" c orig))⟩, true) := by
    unfold uninstrument_openai uninstrChat uninstrAsync uninstrEmb
    simp [lchat, lasync, lemb]
  rw [hinst]
  rw [huninst]
  exact ⟨hidem, lchat, lasync, lemb, rfl, rfl, rfl, rfl, rfl, rfl, rfl⟩

/-- C7, witness at a concrete unpatched state with three distinct base
callables and an empty originals dict. -/
theorem c7_witness :
    c7Start.m.chatMarked = false ∧
    ((∀ s : InstrState, instrument_openai (instrument_openai s) = instrument_openai s) ∧
      (instrument_openai c7Start).originals.lookup "openai_chat_create" = some c7Start.m.chatCreate ∧
      (instrument_openai c7Start).originals.lookup "openai_chat_create_async" = some c7Start.m.chatCreateAsync ∧
      (instrument_openai c7Start).originals.lookup "openai_embeddings_create" = some c7Start.m.embCreate ∧
      (uninstrument_openai (instrument_openai c7Start)).1.m.chatCreate = c7Start.m.chatCreate ∧
      (uninstrument_openai (instrument_openai c7Start)).1.m.chatCreateAsync = c7Start.m.chatCreateAsync ∧
      (uninstrument_openai (instrument_openai c7Start)).1.m.embCreate = c7Start.m.embCreate ∧
      (uninstrument_openai (instrument_openai c7Start)).1.m.chatMarked = false ∧
      (uninstrument_openai (instrument_openai c7Start)).1.m.asyncMarked = false ∧
      (uninstrument_openai (instrument_openai c7Start)).1.m.embMarked = false ∧
      (uninstrument_openai (instrument_openai c7Start)).2 = true) :=
  ⟨rfl, c7_install_idempotent_remove_restores c7Start rfl rfl rfl⟩

end WatchLLM
